import Mathlib

/-!
Verification development for the R2R Python SDK base client
(`py/sdk/base/base_client.py`): a shallow embedding of the credential
state, auth-header derivation, request-argument normalization and the
async-to-sync adapter, with theorems checking the specification's
claims against the embedded code.
-/

set_option autoImplicit false

namespace R2RBase

/-- Python truthiness of an `Optional[str]` value: `None` and the empty
string are falsy, every other string is truthy.  This is the test the
source performs with `if self.access_token`, `self.access_token and
self.api_key`, etc. -/
def truthy : Option String → Bool
  | none => false
  | some s => !(s == "")

/-- The `R2RException` carried by failures of the client: a status code
and a message (embedding of `shared.abstractions.R2RException` as used
by `base_client.py`). -/
structure R2RException where
  status_code : Nat
  message : String
deriving DecidableEq, Repr

/-- State of a `BaseClient` instance after `__init__`: configuration
(`base_url`, `prefix` — called `pfx` here —, `timeout`) and credential
state (`access_token`, `_refresh_token`, `_user_id`, `api_key`; the
api key may have been seeded from the `R2R_API_KEY` environment
variable at construction, which only affects the initial value of the
field and not the logic below). -/
structure BaseClient where
  base_url : String
  /-- the `prefix` attribute of the source -/
  pfx : String
  timeout : Float
  access_token : Option String
  refresh_token : Option String
  user_id : Option String
  api_key : Option String

/-- Embedding of `BaseClient._get_auth_header`:
```
if self.access_token and self.api_key: raise R2RException(400, "Cannot have both access token and api key.")
if self.access_token: return {"Authorization": f"Bearer {self.access_token}"}
elif self.api_key: return {"x-api-key": self.api_key}
else: return {}
```
The returned header dict is modelled as an association list. -/
def get_auth_header (c : BaseClient) : Except R2RException (List (String × String)) :=
  if truthy c.access_token && truthy c.api_key then
    Except.error (R2RException.mk 400 "Cannot have both access token and api key.")
  else if truthy c.access_token then
    Except.ok [("Authorization", "Bearer " ++ c.access_token.getD "")]
  else if truthy c.api_key then
    Except.ok [("x-api-key", c.api_key.getD "")]
  else
    Except.ok []

/-- Embedding of `BaseClient._ensure_authenticated`:
```
if not self.access_token: raise R2RException(401, "Not authenticated. Please login first.")
```
The source mutates nothing, so the embedding is a pure function of the
client returning `Unit` on success. -/
def ensure_authenticated (c : BaseClient) : Except R2RException Unit :=
  if !(truthy c.access_token) then
    Except.error (R2RException.mk 401 "Not authenticated. Please login first.")
  else
    Except.ok ()

/-- Embedding of `BaseClient._get_full_url`:
`f"{self.base_url}/{version}/{endpoint}"`. -/
def get_full_url (c : BaseClient) (endpoint : String) (version : String) : String :=
  c.base_url ++ "/" ++ version ++ "/" ++ endpoint

/-- The default for the `version` parameter of `_get_full_url`. -/
def defaultVersion : String := "v3"

/-- A Python value as it occurs inside the `kwargs` of
`_prepare_request_args`: `None`, a string, a string-to-string dict
(headers, params) or an opaque other value tagged by a number. -/
inductive PyVal where
  | none : PyVal
  | str : String → PyVal
  | dict : List (String × String) → PyVal
  | nat : Nat → PyVal
deriving DecidableEq, Repr

/-- Lookup in a Python dict modelled as an association list
(`d.get(k)` / `d[k]`): first entry whose key equals `k`. -/
def dictGet {α : Type} (d : List (String × α)) (k : String) : Option α :=
  (d.find? (fun p => p.1 == k)).map (fun p => p.2)

/-- `d[k] = v` on a Python dict: overwrite the value at an existing
key in place (keeping its position), else append the new entry at the
end (insertion order). -/
def dictSet {α : Type} : List (String × α) → String → α → List (String × α)
  | [], k, v => [(k, v)]
  | p :: d, k, v => if p.1 == k then (k, v) :: d else p :: dictSet d k v

/-- `d.update(other)` on Python dicts: set each entry of `other` in
`d`, in order, so entries of `other` win on key collision. -/
def dictUpdate {α : Type} (d other : List (String × α)) : List (String × α) :=
  other.foldl (fun acc p => dictSet acc p.1 p.2) d

/-- `d.pop(k, default)`'s effect on the dict: remove every entry with
key `k` (at most one in a well-formed dict). -/
def dictPopKey {α : Type} (d : List (String × α)) (k : String) : List (String × α) :=
  d.filter (fun p => !(p.1 == k))

/-- The endpooint list of `_prepare_request_args` that is exempt from
authentication: `["register", "login", "verify_email"]`. -/
def exemptEndpoints : List String := ["register", "login", "verify_email"]

/-- Failures of `_prepare_request_args`: the propagated `R2RException`
from `_get_auth_header`, or the `AttributeError` Python would raise on
`headers.update(...)` when the caller passed a non-dict `headers`. -/
inductive PrepError where
  | r2r : R2RException → PrepError
  | typeError : PrepError
deriving DecidableEq, Repr

/-- The authentication branch of `_prepare_request_args`:
```
if (self.access_token or self.api_key) and endpoint not in ["register", "login", "verify_email"]:
    headers.update(self._get_auth_header())
```
applied to the `headers` value popped from `kwargs` (passed in as
`headers0`).  When the branch is taken, a non-dict `headers` would
make `headers.update` raise (`typeError`), and the `R2RException` of
`_get_auth_header` propagates. -/
def authHeadersStep (c : BaseClient) (endpoint : String) (headers0 : PyVal) :
    Except PrepError PyVal :=
  if (truthy c.access_token || truthy c.api_key) && !(exemptEndpoints.contains endpoint) then
    match headers0 with
    | PyVal.dict d =>
      match get_auth_header c with
      | Except.error e => Except.error (PrepError.r2r e)
      | Except.ok auth => Except.ok (PyVal.dict (dictUpdate d auth))
    | _ => Except.error PrepError.typeError
  else
    Except.ok headers0

/-- The params normalization of `_prepare_request_args`:
```
if kwargs.get("params", None) == {} or kwargs.get("params", None) is None:
    kwargs.pop("params", None)
```
`kwargs.get("params", None) is None` also holds when the key is
absent, in which case the pop is a no-op. -/
def dropEmptyParams (rest : List (String × PyVal)) : List (String × PyVal) :=
  match dictGet rest "params" with
  | Option.none => dictPopKey rest "params"
  | Option.some PyVal.none => dictPopKey rest "params"
  | Option.some (PyVal.dict []) => dictPopKey rest "params"
  | Option.some _ => rest

/-- Embedding of `BaseClient._prepare_request_args`:
```
headers = kwargs.pop("headers", {})
if (self.access_token or self.api_key) and endpoint not in ["register", "login", "verify_email"]:
    headers.update(self._get_auth_header())
if kwargs.get("params", None) == {} or kwargs.get("params", None) is None:
    kwargs.pop("params", None)
return {"headers": headers, **kwargs}
```
`kwargs` is the keyword-argument dict, modelled as an association
list of `PyVal`s; the result dict lists `headers` first and then the
remaining `kwargs` in order, exactly as the final dict display does. -/
def prepare_request_args (c : BaseClient) (endpoint : String)
    (kwargs : List (String × PyVal)) : Except PrepError (List (String × PyVal)) :=
  match authHeadersStep c endpoint ((dictGet kwargs "headers").getD (PyVal.dict [])) with
  | Except.error e => Except.error e
  | Except.ok headers =>
    Except.ok (dictUpdate [("headers", headers)] (dropEmptyParams (dictPopKey kwargs "headers")))

/-- A concrete client holding only an API key, for witness instances. -/
def apiKeyClient : BaseClient :=
  BaseClient.mk "https://api.cloud.sciphi.ai" "/v3" 300.0 Option.none Option.none Option.none (Option.some "k")

/-- A concrete client holding only an access token. -/
def tokenClient : BaseClient :=
  BaseClient.mk "https://api.cloud.sciphi.ai" "/v3" 300.0 (Option.some "t") Option.none Option.none Option.none

/-- A concrete client holding both credentials (misconfigured). -/
def bothClient : BaseClient :=
  BaseClient.mk "https://api.cloud.sciphi.ai" "/v3" 300.0 (Option.some "t") Option.none Option.none (Option.some "k")

/-- A concrete client holding neither credential. -/
def anonClient : BaseClient :=
  BaseClient.mk "https://api.cloud.sciphi.ai" "/v3" 300.0 Option.none Option.none Option.none Option.none

/-- One observable step of the underlying asynchronous generator, as
driven by `loop.run_until_complete(async_gen.__anext__())` inside
`sync_generator_wrapper`: it either produces a value, signals
exhaustion (`StopAsyncIteration`), or raises some other error. -/
inductive AStep (ε α : Type) where
  | yield : α → AStep ε α
  | stopIteration : AStep ε α
  | error : ε → AStep ε α
deriving DecidableEq, Repr

/-- Drain the wrapper generator of `sync_generator_wrapper` over a
trace of underlying steps: values are yielded in order until the
exhaustion signal (suppressed by `contextlib.suppress`, clean end) or
another error (propagated).  Returns the yielded values, the surfaced
error if any, and the unconsumed remainder of the trace. -/
def runFrom {ε α : Type} : List (AStep ε α) → List α × Option ε × List (AStep ε α)
  | [] => ([], Option.none, [])
  | AStep.yield a :: rest =>
    let r := runFrom rest
    (a :: r.1, r.2.1, r.2.2)
  | AStep.stopIteration :: rest => ([], Option.none, rest)
  | AStep.error e :: rest => ([], Option.some e, rest)

/-- The state of one wrapped generator object returned by
`sync_generator_wrapper`: the remaining trace of the underlying
asynchronous generator, and whether the wrapper generator's frame has
already finished (a Python generator that returned or raised yields
nothing ever after). -/
structure WrappedGen (ε α : Type) where
  remaining : List (AStep ε α)
  finished : Bool
deriving DecidableEq, Repr

/-- One full `for`-loop over a wrapped generator: if the generator is
already finished it yields nothing; otherwise it drains the trace via
`runFrom` and the generator is finished afterwards (both on clean
exhaustion and on a propagated error — an exception terminates the
generator frame). -/
def runIter {ε α : Type} (g : WrappedGen ε α) : List α × Option ε × WrappedGen ε α :=
  if g.finished then ([], Option.none, g)
  else
    let r := runFrom g.remaining
    (r.1, r.2.1, WrappedGen.mk r.2.2 true)

/-- Outcome of one wrapped asynchronous operation: it completes with a
value or raises an error. -/
inductive AsyncOutcome (ε α : Type) where
  | ok : α → AsyncOutcome ε α
  | raise : ε → AsyncOutcome ε α
deriving DecidableEq, Repr

/-- `loop.run_until_complete(coro)` modelled by its contract: it
returns the awaited operation's result, or re-raises the operation's
exception unchanged.  (Acquisition of the loop itself via
`asyncio.get_event_loop()` is runtime state with no effect on the
value and is not modelled.) -/
def run_until_complete {ε α : Type} : AsyncOutcome ε α → Except ε α
  | AsyncOutcome.ok v => Except.ok v
  | AsyncOutcome.raise e => Except.error e

/-- Embedding of `sync_wrapper`: the wrapper obtained from an
asynchronous function simply drives the call to completion and hands
back its outcome, adding no handling of its own:
```
loop = asyncio.get_event_loop()
return loop.run_until_complete(async_func(*args, **kwargs))
``` -/
def sync_wrapper {ι ε α : Type} (async_func : ι → AsyncOutcome ε α) (x : ι) : Except ε α :=
  run_until_complete (async_func x)

end R2RBase

namespace R2RBase

theorem dictGet_nil {α : Type} (k : String) : dictGet ([] : List (String × α)) k = Option.none := rfl

theorem dictGet_cons {α : Type} (p : String × α) (d : List (String × α)) (k : String) :
    dictGet (p :: d) k = if p.1 == k then Option.some p.2 else dictGet d k := by
  simp only [dictGet, List.find?]
  cases h : p.1 == k <;> simp [h]

theorem dictGet_singleton_self {α : Type} (k : String) (v : α) :
    dictGet [(k, v)] k = Option.some v := by
  simp [dictGet_cons]

theorem dictGet_singleton_ne {α : Type} (k0 k : String) (v : α) (h : k0 ≠ k) :
    dictGet [(k0, v)] k = Option.none := by
  simp [dictGet_cons, h, dictGet_nil]

theorem dictGet_eq_none_iff {α : Type} (d : List (String × α)) (k : String) :
    dictGet d k = Option.none ↔ ∀ p ∈ d, p.1 ≠ k := by
  simp [dictGet, List.find?_eq_none]

theorem dictGet_dictSet_self {α : Type} (d : List (String × α)) (k : String) (v : α) :
    dictGet (dictSet d k v) k = Option.some v := by
  induction d with
  | nil => simp [dictSet, dictGet_cons]
  | cons p d ih =>
    by_cases h : p.1 = k
    · simp [dictSet, h, dictGet_cons]
    · simp only [dictSet]
      rw [if_neg (by simp [h])]
      rw [dictGet_cons, if_neg (by simp [h]), ih]

theorem dictGet_dictSet_ne {α : Type} (d : List (String × α)) (k0 k : String) (v : α)
    (h : k0 ≠ k) : dictGet (dictSet d k0 v) k = dictGet d k := by
  induction d with
  | nil => simp [dictSet, dictGet_cons, h]
  | cons p d ih =>
    by_cases hp : p.1 = k0
    · simp only [dictSet]
      rw [if_pos (by simp [hp])]
      rw [dictGet_cons, dictGet_cons, if_neg (by simp [h]), if_neg (by simp [hp, h])]
    · simp only [dictSet]
      rw [if_neg (by simp [hp])]
      rw [dictGet_cons, dictGet_cons, ih]

theorem dictGet_dictUpdate_not_mem {α : Type} (other : List (String × α)) (d : List (String × α))
    (k : String) (h : ∀ p ∈ other, p.1 ≠ k) :
    dictGet (dictUpdate d other) k = dictGet d k := by
  induction other generalizing d with
  | nil => rfl
  | cons q other ih =>
    have hq : q.1 ≠ k := h q (List.mem_cons_self q other)
    have hrest : ∀ p ∈ other, p.1 ≠ k := fun p hp => h p (List.mem_cons_of_mem q hp)
    show dictGet (dictUpdate (dictSet d q.1 q.2) other) k = dictGet d k
    rw [ih (dictSet d q.1 q.2) hrest, dictGet_dictSet_ne d q.1 k q.2 hq]

theorem dictGet_dictUpdate_some {α : Type} (other : List (String × α)) (d : List (String × α))
    (k : String) (v : α) (hnd : (other.map Prod.fst).Nodup) (h : dictGet other k = Option.some v) :
    dictGet (dictUpdate d other) k = Option.some v := by
  induction other generalizing d with
  | nil => simp [dictGet] at h
  | cons q other ih =>
    rw [dictGet_cons] at h
    simp only [List.map_cons, List.nodup_cons] at hnd
    by_cases hq : q.1 = k
    · rw [if_pos (by simp [hq])] at h
      have hrest : ∀ p ∈ other, p.1 ≠ k := by
        intro p hp hpk
        apply hnd.1
        have hmem : p.1 ∈ List.map Prod.fst other := List.mem_map_of_mem Prod.fst hp
        rw [hpk, ← hq] at hmem
        exact hmem
      show dictGet (dictUpdate (dictSet d q.1 q.2) other) k = Option.some v
      rw [dictGet_dictUpdate_not_mem other _ k hrest, hq, dictGet_dictSet_self]
      exact congrArg Option.some (Option.some.inj h)
    · rw [if_neg (by simp [hq])] at h
      exact ih (dictSet d q.1 q.2) hnd.2 h

theorem mem_dictPopKey {α : Type} (d : List (String × α)) (k : String) (p : String × α)
    (hp : p ∈ dictPopKey d k) : p ∈ d ∧ p.1 ≠ k := by
  unfold dictPopKey at hp
  have := List.mem_filter.mp hp
  refine ⟨this.1, ?_⟩
  intro hk
  simp [hk] at this

theorem dictGet_dictPopKey_self {α : Type} (d : List (String × α)) (k : String) :
    dictGet (dictPopKey d k) k = Option.none := by
  rw [dictGet_eq_none_iff]
  exact fun p hp => (mem_dictPopKey d k p hp).2

theorem dictGet_dictPopKey_ne {α : Type} (d : List (String × α)) (k0 k : String) (h : k ≠ k0) :
    dictGet (dictPopKey d k0) k = dictGet d k := by
  induction d with
  | nil => rfl
  | cons p d ih =>
    by_cases hp : p.1 = k0
    · have hpop : dictPopKey (p :: d) k0 = dictPopKey d k0 := by
        simp [dictPopKey, List.filter_cons, hp]
      have hpk : ¬ ((p.1 == k) = true) := by simp [hp, Ne.symm h]
      rw [hpop, ih, dictGet_cons, if_neg hpk]
    · have hpop : dictPopKey (p :: d) k0 = p :: dictPopKey d k0 := by
        simp [dictPopKey, List.filter_cons, hp]
      rw [hpop, dictGet_cons, dictGet_cons, ih]

theorem nodup_keys_dictPopKey {α : Type} (d : List (String × α)) (k : String)
    (h : (d.map Prod.fst).Nodup) : ((dictPopKey d k).map Prod.fst).Nodup :=
  h.sublist (List.Sublist.map Prod.fst (List.filter_sublist d))

theorem authHeadersStep_exempt (c : BaseClient) (endpoint : String) (headers0 : PyVal)
    (hc : exemptEndpoints.contains endpoint = true) :
    authHeadersStep c endpoint headers0 = Except.ok headers0 := by
  unfold authHeadersStep
  rw [hc]
  simp

theorem mem_dropEmptyParams (rest : List (String × PyVal)) (p : String × PyVal)
    (hp : p ∈ dropEmptyParams rest) : p ∈ rest := by
  unfold dropEmptyParams at hp
  split at hp <;> first | exact (mem_dictPopKey _ _ _ hp).1 | exact hp

theorem dictGet_dropEmptyParams_ne (rest : List (String × PyVal)) (k : String)
    (h : k ≠ "params") : dictGet (dropEmptyParams rest) k = dictGet rest k := by
  unfold dropEmptyParams
  split <;> first | exact dictGet_dictPopKey_ne rest "params" k h | rfl

theorem nodup_keys_dropEmptyParams (rest : List (String × PyVal))
    (h : (rest.map Prod.fst).Nodup) : ((dropEmptyParams rest).map Prod.fst).Nodup := by
  unfold dropEmptyParams
  split <;> first | exact nodup_keys_dictPopKey rest "params" h | exact h

theorem dropEmptyParams_drops (rest : List (String × PyVal))
    (h : dictGet rest "params" = Option.some (PyVal.dict [])
        ∨ dictGet rest "params" = Option.some PyVal.none) :
    dictGet (dropEmptyParams rest) "params" = Option.none := by
  unfold dropEmptyParams
  rcases h with h | h <;> rw [h] <;> exact dictGet_dictPopKey_self rest "params"

theorem dropEmptyParams_keeps (rest : List (String × PyVal)) (v : PyVal)
    (hv : dictGet rest "params" = Option.some v) (h1 : v ≠ PyVal.dict [])
    (h2 : v ≠ PyVal.none) : dropEmptyParams rest = rest := by
  unfold dropEmptyParams
  rw [hv]
  cases v with
  | none => exact absurd rfl h2
  | str s => rfl
  | nat n => rfl
  | dict l =>
    cases l with
    | nil => exact absurd rfl h1
    | cons x xs => rfl

theorem dictGet_result_headers (h0 : PyVal) (rest2 : List (String × PyVal))
    (h : ∀ p ∈ rest2, p.1 ≠ "headers") :
    dictGet (dictUpdate [("headers", h0)] rest2) "headers" = Option.some h0 := by
  rw [dictGet_dictUpdate_not_mem rest2 _ "headers" h, dictGet_singleton_self]

theorem get_auth_header_xor (c : BaseClient) (hone : truthy c.access_token ≠ truthy c.api_key) :
    ∃ auth, get_auth_header c = Except.ok auth := by
  unfold get_auth_header
  cases hat : truthy c.access_token <;> cases hak : truthy c.api_key <;> rw [hat, hak] at hone
  · exact absurd rfl hone
  · exact ⟨_, rfl⟩
  · exact ⟨_, rfl⟩
  · exact absurd rfl hone

theorem truthy_or_of_xor (c : BaseClient) (hone : truthy c.access_token ≠ truthy c.api_key) :
    (truthy c.access_token || truthy c.api_key) = true := by
  cases hat : truthy c.access_token <;> cases hak : truthy c.api_key <;> rw [hat, hak] at hone <;>
    first | exact absurd rfl hone | rfl

/-- C1: when both `accessToken` and `apiKey` are set, `buildAuthHeader`
fails with the 400 error "Cannot have both access token and api key."
and never returns a header mapping. -/
theorem claim1_conflict (c : BaseClient)
    (hat : truthy c.access_token = true) (hak : truthy c.api_key = true) :
    get_auth_header c =
      Except.error (R2RException.mk 400 "Cannot have both access token and api key.") := by
  unfold get_auth_header
  rw [hat, hak]
  rfl

/-- Witness for C1 at a concrete misconfigured client. -/
theorem claim1_conflict_witness :
    get_auth_header bothClient =
      Except.error (R2RException.mk 400 "Cannot have both access token and api key.") :=
  claim1_conflict bothClient (by decide) (by decide)

/-- C2: with only `accessToken` set the auth header is exactly
`{"Authorization": "Bearer " ++ accessToken}`; with only `apiKey` set
it is exactly `{"x-api-key": apiKey}`; with neither set it is empty. -/
theorem claim2_auth_header_cases (c : BaseClient) :
    (truthy c.access_token = true → truthy c.api_key = false →
      get_auth_header c = Except.ok [("Authorization", "Bearer " ++ c.access_token.getD "")])
    ∧ (truthy c.access_token = false → truthy c.api_key = true →
      get_auth_header c = Except.ok [("x-api-key", c.api_key.getD "")])
    ∧ (truthy c.access_token = false → truthy c.api_key = false →
      get_auth_header c = Except.ok []) := by
  refine ⟨?_, ?_, ?_⟩ <;> intro hat hak <;> unfold get_auth_header <;> rw [hat, hak] <;> rfl

/-- Witness for C2 at concrete clients with a single credential and
with none. -/
theorem claim2_auth_header_cases_witness :
    get_auth_header tokenClient = Except.ok [("Authorization", "Bearer t")]
    ∧ get_auth_header apiKeyClient = Except.ok [("x-api-key", "k")]
    ∧ get_auth_header anonClient = Except.ok [] :=
  ⟨(claim2_auth_header_cases tokenClient).1 (by decide) (by decide),
   (claim2_auth_header_cases apiKeyClient).2.1 (by decide) (by decide),
   (claim2_auth_header_cases anonClient).2.2 (by decide) (by decide)⟩

/-- C3: `requireAuthenticated` fails with the 401 error "Not
authenticated. Please login first." exactly when `accessToken` is
absent, regardless of `apiKey`; with `accessToken` set it succeeds
(the source mutates nothing, so the embedded state is untouched). -/
theorem claim3_ensure_authenticated (c : BaseClient) :
    (ensure_authenticated c =
        Except.error (R2RException.mk 401 "Not authenticated. Please login first.")
      ↔ truthy c.access_token = false)
    ∧ (truthy c.access_token = true → ensure_authenticated c = Except.ok ()) := by
  unfold ensure_authenticated
  cases h : truthy c.access_token <;> simp [h]

/-- Witness for C3: the anonymous client fails the check, the
token-holding client passes it. -/
theorem claim3_ensure_authenticated_witness :
    ensure_authenticated anonClient =
        Except.error (R2RException.mk 401 "Not authenticated. Please login first.")
    ∧ ensure_authenticated tokenClient = Except.ok () :=
  ⟨(claim3_ensure_authenticated anonClient).1.mpr (by decide),
   (claim3_ensure_authenticated tokenClient).2 (by decide)⟩

/-- C4: for an endpoint in the exempt list (`register`, `login`,
`verify_email`), `prepareRequestArgs` raises no error — for any
credential state, in particular with both credentials set — and the
result's `headers` entry is exactly the caller-supplied headers value
(empty dict if absent), with no authentication entry attached; the
exemption list is an exact, case-sensitive match, so `"Login"` is not
in it. -/
theorem claim4_exempt_endpoints (c : BaseClient) (kwargs : List (String × PyVal))
    (endpoint : String) (hex : endpoint ∈ exemptEndpoints) :
    ∃ out, prepare_request_args c endpoint kwargs = Except.ok out
      ∧ dictGet out "headers" = Option.some ((dictGet kwargs "headers").getD (PyVal.dict []))
      ∧ ¬ ("Login" ∈ exemptEndpoints) := by
  have hc : exemptEndpoints.contains endpoint = true := by
    simp only [exemptEndpoints, List.mem_cons, List.not_mem_nil, or_false] at hex
    rcases hex with rfl | rfl | rfl <;> rfl
  unfold prepare_request_args
  rw [authHeadersStep_exempt c endpoint _ hc]
  refine ⟨_, rfl, ?_, by decide⟩
  apply dictGet_result_headers
  intro p hp
  exact (mem_dictPopKey kwargs "headers" p (mem_dropEmptyParams _ p hp)).2

/-- Witness for C4: the `login` endpoint with a misconfigured client
holding both credentials still succeeds and attaches nothing. -/
theorem claim4_exempt_endpoints_witness :
    ∃ out, prepare_request_args bothClient "login" [] = Except.ok out
      ∧ dictGet out "headers"
          = Option.some ((dictGet ([] : List (String × PyVal)) "headers").getD (PyVal.dict []))
      ∧ ¬ ("Login" ∈ exemptEndpoints) :=
  claim4_exempt_endpoints bothClient [] "login" (by decide)

/-- C5: when `rawArgs` carries a `params` entry that is the empty
mapping or the absence value, the result of `prepareRequestArgs` has
no `params` key; concretely, `prepareRequestArgs("search",
credsWithApiKey, {"params": {}})` is a bundle with no `params` key
whose headers hold the `x-api-key` entry. -/
theorem claim5_empty_params_dropped (c : BaseClient) (endpoint : String)
    (kwargs : List (String × PyVal)) (out : List (String × PyVal))
    (hp : dictGet kwargs "params" = Option.some (PyVal.dict [])
        ∨ dictGet kwargs "params" = Option.some PyVal.none)
    (hok : prepare_request_args c endpoint kwargs = Except.ok out) :
    dictGet out "params" = Option.none
    ∧ prepare_request_args apiKeyClient "search" [("params", PyVal.dict [])]
        = Except.ok [("headers", PyVal.dict [("x-api-key", "k")])] := by
  constructor
  · unfold prepare_request_args at hok
    split at hok
    · exact absurd hok (by simp)
    · have hout := Except.ok.inj hok
      subst hout
      have hp' : dictGet (dictPopKey kwargs "headers") "params" = Option.some (PyVal.dict [])
          ∨ dictGet (dictPopKey kwargs "headers") "params" = Option.some PyVal.none := by
        rw [dictGet_dictPopKey_ne kwargs "headers" "params" (by decide)]
        exact hp
      have hnone := dropEmptyParams_drops (dictPopKey kwargs "headers") hp'
      rw [dictGet_dictUpdate_not_mem _ _ "params" ((dictGet_eq_none_iff _ "params").mp hnone),
        dictGet_singleton_ne "headers" "params" _ (by decide)]
  · rfl

/-- Witness for C5: a client with no credentials, endpoint `"x"`, and
`params` explicitly `None`. -/
theorem claim5_empty_params_dropped_witness :
    dictGet [("headers", PyVal.dict [])] "params" = Option.none
    ∧ prepare_request_args apiKeyClient "search" [("params", PyVal.dict [])]
        = Except.ok [("headers", PyVal.dict [("x-api-key", "k")])] :=
  claim5_empty_params_dropped anonClient "x" [("params", PyVal.none)]
    [("headers", PyVal.dict [])] (Or.inr (by decide)) rfl

/-- C6: for a non-exempt endpoint and exactly one credential set, the
result of `prepareRequestArgs` has a `headers` entry equal to the
caller-supplied headers (empty dict if absent) updated with the auth
header — auth entries overwrite colliding caller keys —, every key of
`rawArgs` other than `headers` and `params` is passed through with its
value unchanged, and a non-empty, non-absent `params` entry is also
unchanged. -/
theorem claim6_auth_merge (c : BaseClient) (endpoint : String) (kwargs : List (String × PyVal))
    (d : List (String × String))
    (he : exemptEndpoints.contains endpoint = false)
    (hone : truthy c.access_token ≠ truthy c.api_key)
    (hd : (dictGet kwargs "headers").getD (PyVal.dict []) = PyVal.dict d)
    (hnd : (kwargs.map Prod.fst).Nodup) :
    ∃ auth out,
      get_auth_header c = Except.ok auth
      ∧ prepare_request_args c endpoint kwargs = Except.ok out
      ∧ dictGet out "headers" = Option.some (PyVal.dict (dictUpdate d auth))
      ∧ (∀ k, k ≠ "headers" → k ≠ "params" → dictGet out k = dictGet kwargs k)
      ∧ (∀ v, dictGet kwargs "params" = Option.some v → v ≠ PyVal.dict [] →
          v ≠ PyVal.none → dictGet out "params" = Option.some v) := by
  obtain ⟨auth, hauth⟩ := get_auth_header_xor c hone
  have hor := truthy_or_of_xor c hone
  have hstep : authHeadersStep c endpoint ((dictGet kwargs "headers").getD (PyVal.dict []))
      = Except.ok (PyVal.dict (dictUpdate d auth)) := by
    unfold authHeadersStep
    rw [hd, hor, he, hauth]
    rfl
  refine ⟨auth, dictUpdate [("headers", PyVal.dict (dictUpdate d auth))]
    (dropEmptyParams (dictPopKey kwargs "headers")), hauth, ?_, ?_, ?_, ?_⟩
  · simp only [prepare_request_args, hstep]
  · apply dictGet_result_headers
    intro p hp
    exact (mem_dictPopKey kwargs "headers" p (mem_dropEmptyParams _ p hp)).2
  · intro k hk1 hk2
    cases hgk : dictGet kwargs k with
    | none =>
      have hrk : dictGet (dropEmptyParams (dictPopKey kwargs "headers")) k = Option.none := by
        rw [dictGet_dropEmptyParams_ne _ k hk2, dictGet_dictPopKey_ne _ _ _ hk1, hgk]
      rw [dictGet_dictUpdate_not_mem _ _ k ((dictGet_eq_none_iff _ k).mp hrk),
        dictGet_singleton_ne "headers" k _ (Ne.symm hk1)]
    | some v =>
      have hrk : dictGet (dropEmptyParams (dictPopKey kwargs "headers")) k = Option.some v := by
        rw [dictGet_dropEmptyParams_ne _ k hk2, dictGet_dictPopKey_ne _ _ _ hk1, hgk]
      exact dictGet_dictUpdate_some _ _ k v
        (nodup_keys_dropEmptyParams _ (nodup_keys_dictPopKey kwargs "headers" hnd)) hrk
  · intro v hv h1 h2
    have hv' : dictGet (dictPopKey kwargs "headers") "params" = Option.some v := by
      rw [dictGet_dictPopKey_ne _ _ _ (by decide)]
      exact hv
    rw [dropEmptyParams_keeps _ v hv' h1 h2]
    exact dictGet_dictUpdate_some _ _ "params" v (nodup_keys_dictPopKey kwargs "headers" hnd) hv'

/-- Witness for C6: the api-key client on the non-exempt `search`
endpoint with one passthrough argument. -/
theorem claim6_auth_merge_witness :
    ∃ auth out,
      get_auth_header apiKeyClient = Except.ok auth
      ∧ prepare_request_args apiKeyClient "search" [("q", PyVal.str "x")] = Except.ok out
      ∧ dictGet out "headers" = Option.some (PyVal.dict (dictUpdate [] auth))
      ∧ (∀ k, k ≠ "headers" → k ≠ "params" →
          dictGet out k = dictGet [("q", PyVal.str "x")] k)
      ∧ (∀ v, dictGet [("q", PyVal.str "x")] "params" = Option.some v → v ≠ PyVal.dict [] →
          v ≠ PyVal.none → dictGet out "params" = Option.some v) :=
  claim6_auth_merge apiKeyClient "search" [("q", PyVal.str "x")] []
    (by decide) (by decide) (by decide) (by simp)

/-- C7: wrapping an asynchronous sequence that yields `[1, 2, 3]` and
then signals exhaustion produces the synchronous sequence `[1, 2, 3]`
in order, terminating cleanly with no surfaced error, and a second
full iteration over the same wrapped object yields no elements and no
error (single-pass, not restartable) — whatever the unconsumed tail of
the trace. -/
theorem claim7_stream_one_two_three (tail : List (AStep String Nat)) :
    (runIter (WrappedGen.mk
        ([AStep.yield 1, AStep.yield 2, AStep.yield 3, AStep.stopIteration] ++ tail) false)).1
      = [1, 2, 3]
    ∧ (runIter (WrappedGen.mk
        ([AStep.yield 1, AStep.yield 2, AStep.yield 3, AStep.stopIteration] ++ tail) false)).2.1
      = Option.none
    ∧ (runIter ((runIter (WrappedGen.mk
        ([AStep.yield 1, AStep.yield 2, AStep.yield 3, AStep.stopIteration] ++ tail)
        false)).2.2)).1 = []
    ∧ (runIter ((runIter (WrappedGen.mk
        ([AStep.yield 1, AStep.yield 2, AStep.yield 3, AStep.stopIteration] ++ tail)
        false)).2.2)).2.1 = Option.none := by
  refine ⟨?_, ?_, ?_, ?_⟩ <;> simp [runIter, runFrom]

/-- Witness for C7 at the empty trace tail. -/
theorem claim7_stream_one_two_three_witness :
    (runIter (WrappedGen.mk
        ([AStep.yield 1, AStep.yield 2, AStep.yield 3, AStep.stopIteration]
          ++ ([] : List (AStep String Nat))) false)).1
      = [1, 2, 3]
    ∧ (runIter (WrappedGen.mk
        ([AStep.yield 1, AStep.yield 2, AStep.yield 3, AStep.stopIteration]
          ++ ([] : List (AStep String Nat))) false)).2.1
      = Option.none
    ∧ (runIter ((runIter (WrappedGen.mk
        ([AStep.yield 1, AStep.yield 2, AStep.yield 3, AStep.stopIteration]
          ++ ([] : List (AStep String Nat)))
        false)).2.2)).1 = []
    ∧ (runIter ((runIter (WrappedGen.mk
        ([AStep.yield 1, AStep.yield 2, AStep.yield 3, AStep.stopIteration]
          ++ ([] : List (AStep String Nat)))
        false)).2.2)).2.1 = Option.none :=
  claim7_stream_one_two_three []

/-- C8: a `wrap_call`-wrapped operation returns exactly the value the
asynchronous operation completed with, and an error raised by the
operation reaches the synchronous caller exactly as raised — not
wrapped, renamed or suppressed. -/
theorem claim8_sync_passthrough {ι ε α : Type} (f : ι → AsyncOutcome ε α) (x : ι) :
    (∀ v, f x = AsyncOutcome.ok v → sync_wrapper f x = Except.ok v)
    ∧ (∀ e, f x = AsyncOutcome.raise e → sync_wrapper f x = Except.error e) := by
  refine ⟨fun v hv => ?_, fun e hev => ?_⟩
  · simp [sync_wrapper, run_until_complete, hv]
  · simp [sync_wrapper, run_until_complete, hev]

/-- Witness for C8: a completing and a raising operation. -/
theorem claim8_sync_passthrough_witness :
    sync_wrapper (fun _ : Unit => (AsyncOutcome.ok 42 : AsyncOutcome String Nat)) ()
      = Except.ok 42
    ∧ sync_wrapper (fun _ : Unit => (AsyncOutcome.raise "E" : AsyncOutcome String Nat)) ()
      = Except.error "E" :=
  ⟨(claim8_sync_passthrough (fun _ : Unit => (AsyncOutcome.ok 42 : AsyncOutcome String Nat)) ()).1
      42 rfl,
   (claim8_sync_passthrough (fun _ : Unit => (AsyncOutcome.raise "E" : AsyncOutcome String Nat)) ()).2
      "E" rfl⟩

/-- C10: the full request URL is `base_url ++ "/" ++ version ++ "/" ++
endpoint`, the version defaults to `"v3"`, and the `prefix` stored in
the client configuration never enters the URL: two clients agreeing on
`base_url` produce identical URLs whatever their prefixes. -/
theorem claim10_full_url (c c2 : BaseClient) (endpoint version : String) :
    get_full_url c endpoint version = c.base_url ++ "/" ++ version ++ "/" ++ endpoint
    ∧ defaultVersion = "v3"
    ∧ (c.base_url = c2.base_url →
        get_full_url c endpoint version = get_full_url c2 endpoint version) := by
  refine ⟨rfl, rfl, fun h => ?_⟩
  unfold get_full_url
  rw [h]

/-- Witness for C10 at two concrete clients that share a base URL but
could differ in prefix. -/
theorem claim10_full_url_witness :
    get_full_url tokenClient "users" "v3" = "https://api.cloud.sciphi.ai/v3/users"
    ∧ get_full_url tokenClient "users" "v3" = get_full_url anonClient "users" "v3" :=
  ⟨(claim10_full_url tokenClient anonClient "users" "v3").1,
   (claim10_full_url tokenClient anonClient "users" "v3").2.2 rfl⟩

end R2RBase
